import Mathlib

/-!
Verification of the authenticated API client of this repository.

The development shallowly embeds, from the source:
- the secure token store wrapper `TokenService` over the platform
  key-value secure storage (get/set/delete by string key);
- the axios request interceptor (outbound hook attaching the bearer
  token) and response interceptor (inbound hook performing the
  401 refresh-and-retry protocol), combined in `apiCall`;
- the auth facade operations `AuthAPI.login` and `AuthAPI.logout`;
- the session state manager of `AuthContext` (`checkAuth`, `login`,
  `logout`).

Asynchronous storage reads that may throw are modelled by a boolean
oracle per read (`readOk`): the source catches the exception and turns
it into a null result.  The backend is modelled as a function from
requests to transport results; the raw transport used by the refresh
call is a separate oracle, mirroring that the source issues the refresh
on the plain axios export rather than on the intercepted api instance.
-/

/-- The platform secure key-value storage, a partial map from string
keys to stored string values. -/
abbrev SecureKV := String → Option String

/-- Key under which the access token is stored. -/
def ACCESS_TOKEN_KEY : String := "access_token"

/-- Key under which the refresh token is stored. -/
def REFRESH_TOKEN_KEY : String := "refresh_token"

/-- SecureStore.setItemAsync: store a value under a key. -/
def setItemAsync (key value : String) (s : SecureKV) : SecureKV :=
  fun k => if k = key then some value else s k

/-- SecureStore.deleteItemAsync: remove the value under a key. -/
def deleteItemAsync (key : String) (s : SecureKV) : SecureKV :=
  fun k => if k = key then none else s k

/-- JavaScript truthiness of a string-or-null value: truthy exactly
when it is a non-null, non-empty string. -/
def truthy : Option String → Bool
  | none => false
  | some t => t != ""

namespace TokenService

/-- TokenService.getAccessToken: read the access token; a storage read
failure (readOk = false models the thrown exception) is caught and
yields null. -/
def getAccessToken (readOk : Bool) (s : SecureKV) : Option String :=
  if readOk then s ACCESS_TOKEN_KEY else none

/-- TokenService.getRefreshToken: read the refresh token; a storage
read failure is caught and yields null. -/
def getRefreshToken (readOk : Bool) (s : SecureKV) : Option String :=
  if readOk then s REFRESH_TOKEN_KEY else none

/-- TokenService.setTokens: store the access token, then the refresh
token. -/
def setTokens (accessToken refreshToken : String) (s : SecureKV) : SecureKV :=
  setItemAsync REFRESH_TOKEN_KEY refreshToken (setItemAsync ACCESS_TOKEN_KEY accessToken s)

/-- TokenService.clearTokens: delete both stored tokens. -/
def clearTokens (s : SecureKV) : SecureKV :=
  deleteItemAsync REFRESH_TOKEN_KEY (deleteItemAsync ACCESS_TOKEN_KEY s)

end TokenService

/-- An axios request config, restricted to the fields the auth logic
touches: method and url identify the endpoint, body holds the
refresh_token body field when present, auth is the Authorization
header, retry is the _retry marker set by the response interceptor. -/
structure Request where
  method : String
  url : String
  body : Option String
  auth : Option String
  retry : Bool
deriving DecidableEq

/-- A successful HTTP response, with an opaque payload. -/
structure Response where
  data : String
deriving DecidableEq

/-- An axios error as seen by the response interceptor: the optional
HTTP status of error.response, and error.config, the request that was
sent. -/
structure AxiosErr where
  status : Option Nat
  config : Option Request
deriving DecidableEq

/-- The request interceptor (outbound hook): read the current access
token and, if it is truthy, set the Authorization header to the Bearer
value; the config is forwarded otherwise unchanged. -/
def requestInterceptor (token : Option String) (config : Request) : Request :=
  { config with
    auth := if truthy token then some ("Bearer " ++ (token.getD "")) else config.auth }

/-- Result of the raw HTTP transport for one sent request: a
successful response, or an axios error carrying the optional HTTP
status of the failed response. -/
inductive TResult where
  | success (resp : Response)
  | failure (status : Option Nat)
deriving DecidableEq

/-- Result a top-level api call settles to: a resolved response, or a
rejected axios error. -/
inductive CallResult where
  | ok (resp : Response)
  | err (e : AxiosErr)
deriving DecidableEq

/-- Observable outcome of one top-level api call: its settled result,
the token storage afterwards, and how many refresh calls and retried
resubmissions the inbound hook performed along the way. -/
structure Outcome where
  result : CallResult
  store : SecureKV
  refreshes : Nat
  resubmits : Nat

/-- Per-call oracles: whether each of the four secure-storage reads
succeeds (false models a thrown read, which the source catches into
null), and the raw transport answering the refresh call.  The refresh
transport returns either an error with its optional status, or a 2xx
response whose data.access_token field is the given string when
present; a missing field makes the subsequent setTokens call throw,
which the catch of the inbound hook handles. -/
structure Env where
  readOk1 : Bool
  readOk2 : Bool
  refreshReadOk : Bool
  reReadOk : Bool
  refreshBackend : Request → Except (Option Nat) (Option String)

/-- The refresh call built inside the inbound hook: axios.post on the
plain axios export, not on the intercepted api instance, so no
interceptor runs for it: no Authorization header is attached, and its
rejection is handled by the enclosing catch instead of re-entering the
inbound hook. -/
def refreshRequest (refreshToken : String) : Request :=
  { method := "POST", url := "/auth/refresh", body := some refreshToken,
    auth := none, retry := false }

/-- One call through the api instance: the outbound hook attaches the
bearer token, the transport runs, and on an error the inbound hook
runs the refresh-and-retry protocol of the source: on a 401 whose
config carries no _retry marker, mark it, read the refresh token; if
truthy, issue the refresh call on the raw transport; on refresh
success persist the new access token with the re-read refresh token
(empty-string fallback), overwrite the Authorization header and
resubmit the marked request through this same pipeline; on refresh
failure clear the tokens; in every non-retrying case reject the
original error.  The outbound read oracle is readOk1 for a fresh
request and readOk2 for the resubmitted one. -/
def apiCall (backend : Request → TResult) (env : Env) (s : SecureKV)
    (req : Request) : Outcome :=
  let sent := requestInterceptor
    (TokenService.getAccessToken (if req.retry then env.readOk2 else env.readOk1) s) req
  match backend sent with
  | .success resp => ⟨.ok resp, s, 0, 0⟩
  | .failure st =>
    if h401 : st = some 401 ∧ sent.retry = false then
      let marked : Request := { sent with retry := true }
      match TokenService.getRefreshToken env.refreshReadOk s with
      | some rt =>
        if truthy (some rt) then
          match env.refreshBackend (refreshRequest rt) with
          | .ok (some access_token) =>
            let currentRefreshToken := TokenService.getRefreshToken env.reReadOk s
            let s1 := TokenService.setTokens access_token (currentRefreshToken.getD "") s
            let retried : Request := { marked with auth := some ("Bearer " ++ access_token) }
            let o := apiCall backend env s1 retried
            ⟨o.result, o.store, o.refreshes + 1, o.resubmits + 1⟩
          | .ok none =>
            ⟨.err ⟨st, some marked⟩, TokenService.clearTokens s, 1, 0⟩
          | .error _ =>
            ⟨.err ⟨st, some marked⟩, TokenService.clearTokens s, 1, 0⟩
        else
          ⟨.err ⟨st, some marked⟩, s, 0, 0⟩
      | none => ⟨.err ⟨st, some marked⟩, s, 0, 0⟩
    else
      ⟨.err ⟨st, some sent⟩, s, 0, 0⟩
termination_by (if req.retry then 0 else 1)
decreasing_by
  have hret : req.retry = false := h401.2
  simp [hret]

/-- The request the outbound hook hands to the transport for a given
incoming request. -/
def sentRequest (env : Env) (s : SecureKV) (req : Request) : Request :=
  requestInterceptor
    (TokenService.getAccessToken (if req.retry then env.readOk2 else env.readOk1) s) req

/-- The attempt descriptor of the retried resubmission: the sent
request, marked as retried, with its Authorization header overwritten
with the new access token. -/
def retriedRequest (env : Env) (s : SecureKV) (req : Request) (a : String) : Request :=
  { sentRequest env s req with retry := true, auth := some ("Bearer " ++ a) }

/-- The storage persisted after a successful refresh: the new access
token paired with the re-read refresh token, empty string when the
re-read yields null. -/
def refreshedStore (env : Env) (s : SecureKV) (a : String) : SecureKV :=
  TokenService.setTokens a ((TokenService.getRefreshToken env.reReadOk s).getD "") s

/-- A user profile as returned by the backend. -/
structure User where
  id : String
  name : String
  email : String
  created_at : String
deriving DecidableEq

/-- The parsed payload of a successful signup or login response. -/
structure AuthResponse where
  message : String
  user : User
  access_token : String
  refresh_token : String
  token_type : String
  expires_in : Nat
deriving DecidableEq

namespace AuthAPI

/-- AuthAPI.login: post the credentials to /auth/login through the api
instance (whose settled outcome is the given oracle); on success store
the returned token pair, then return the parsed payload; a rejection
propagates unchanged and the storage is untouched. -/
def login (postResult : Except AxiosErr AuthResponse) (s : SecureKV) :
    Except AxiosErr AuthResponse × SecureKV :=
  match postResult with
  | .ok resp => (.ok resp, TokenService.setTokens resp.access_token resp.refresh_token s)
  | .error e => (.error e, s)

/-- AuthAPI.logout: post to /auth/logout inside try/finally: the
finally clause always clears the stored tokens, and a rejection of the
post is then rethrown to the caller, since try/finally without a catch
clause does not swallow the error. -/
def logout (postResult : Except AxiosErr Unit) (s : SecureKV) :
    Except AxiosErr Unit × SecureKV :=
  (postResult, TokenService.clearTokens s)

end AuthAPI

/-- The session state held by AuthProvider: the current user and the
isLoading flag. -/
structure Session where
  user : Option User
  isLoading : Bool
deriving DecidableEq

/-- The derived authentication status: double negation of user. -/
def isAuthenticated (st : Session) : Bool := st.user.isSome

namespace AuthContext

/-- AuthContext.login: await AuthAPI.login and set the user from its
response; a rejection leaves the user untouched and propagates to the
caller. -/
def login (postResult : Except AxiosErr AuthResponse) (s : SecureKV) (st : Session) :
    Except AxiosErr Unit × SecureKV × Session :=
  match AuthAPI.login postResult s with
  | (.ok resp, s1) => (.ok (), s1, { st with user := some resp.user })
  | (.error e, s1) => (.error e, s1, st)

/-- AuthContext.logout: await AuthAPI.logout, then set the user to
null; when AuthAPI.logout rethrows the remote failure, the setUser
call is skipped and the rejection propagates to the caller. -/
def logout (postResult : Except AxiosErr Unit) (s : SecureKV) (st : Session) :
    Except AxiosErr Unit × SecureKV × Session :=
  match AuthAPI.logout postResult s with
  | (.ok _, s1) => (.ok (), s1, { st with user := none })
  | (.error e, s1) => (.error e, s1, st)

/-- Observable outcome of the startup check: the storage and session
afterwards, how many profile fetches were issued, and how many times
the finally clause resolved isLoading. -/
structure CheckOut where
  store : SecureKV
  session : Session
  profileFetches : Nat
  loadingResolutions : Nat

/-- AuthContext.checkAuth: read the access token; when truthy, fetch
the profile (its settled outcome is the oracle) and set the user on
success; any error is caught, the tokens cleared and the user set to
null; the finally clause resolves isLoading to false on every path. -/
def checkAuth (readOk : Bool) (profileResult : Except AxiosErr User)
    (s : SecureKV) (st : Session) : CheckOut :=
  if truthy (TokenService.getAccessToken readOk s) then
    match profileResult with
    | .ok u => ⟨s, { st with user := some u, isLoading := false }, 1, 1⟩
    | .error _ =>
      ⟨TokenService.clearTokens s, { st with user := none, isLoading := false }, 1, 1⟩
  else
    ⟨s, { st with isLoading := false }, 0, 1⟩

end AuthContext

/-- An empty secure storage. -/
def emptyStore : SecureKV := fun _ => none

/-- A storage holding a normal token pair. -/
def store0 : SecureKV := TokenService.setTokens "a0" "r0" emptyStore

/-- A storage whose access token is the empty string. -/
def storeEmptyTok : SecureKV := TokenService.setTokens "" "r0" emptyStore

/-- A storage holding only an access token, no refresh token. -/
def storeNoRefresh : SecureKV := setItemAsync ACCESS_TOKEN_KEY "a0" emptyStore

/-- A fresh request, not yet retried. -/
def reqFresh : Request :=
  { method := "GET", url := "/auth/me", body := none, auth := none, retry := false }

/-- A request already carrying the retry marker. -/
def reqRetried : Request :=
  { method := "GET", url := "/dashboard", body := none, auth := none, retry := true }

/-- A mock backend that always answers 401. -/
def backend401 : Request → TResult := fun _ => .failure (some 401)

/-- A mock backend that answers 401 until the request is retried and
then succeeds. -/
def backendRetryOk : Request → TResult :=
  fun r => if r.retry then .success ⟨"payload"⟩ else .failure (some 401)

/-- Oracles: all storage reads succeed, the refresh endpoint rejects
with 400. -/
def envRefreshFail : Env :=
  { readOk1 := true, readOk2 := true, refreshReadOk := true, reReadOk := true,
    refreshBackend := fun _ => .error (some 400) }

/-- Oracles: all storage reads succeed, the refresh endpoint rejects
with 401. -/
def envRefresh401 : Env :=
  { readOk1 := true, readOk2 := true, refreshReadOk := true, reReadOk := true,
    refreshBackend := fun _ => .error (some 401) }

/-- Oracles: all storage reads succeed, the refresh endpoint returns a
new access token. -/
def envRefreshOk : Env :=
  { readOk1 := true, readOk2 := true, refreshReadOk := true, reReadOk := true,
    refreshBackend := fun _ => .ok (some "a1") }

/-- Oracles: the refresh endpoint returns a new access token but the
defensive re-read of the refresh token fails (yields null). -/
def envReReadFails : Env :=
  { readOk1 := true, readOk2 := true, refreshReadOk := true, reReadOk := false,
    refreshBackend := fun _ => .ok (some "a1") }

/-- A sample user, login payload, session states and network error for
concrete runs. -/
def user0 : User := { id := "1", name := "N", email := "u@x.com", created_at := "2024-01-01" }

def resp0 : AuthResponse :=
  { message := "ok", user := user0, access_token := "a1", refresh_token := "r1",
    token_type := "bearer", expires_in := 900 }

def err0 : AxiosErr := { status := none, config := none }

def sess0 : Session := { user := some user0, isLoading := false }

def sessAbsent : Session := { user := none, isLoading := true }

theorem sentRequest_retry (env : Env) (s : SecureKV) (req : Request) :
    (sentRequest env s req).retry = req.retry := rfl

/-- Path lemma: the transport succeeded; the response passes through
the inbound hook unchanged. -/
theorem apiCall_success (backend : Request → TResult) (env : Env) (s : SecureKV)
    (req : Request) (resp : Response)
    (hb : backend (sentRequest env s req) = .success resp) :
    apiCall backend env s req = ⟨.ok resp, s, 0, 0⟩ := by
  unfold apiCall
  simp only [sentRequest] at hb
  simp [hb]

/-- Path lemma: an error on a request already carrying the retry
marker is rejected unchanged: no refresh, no resubmission. -/
theorem apiCall_alreadyRetried (backend : Request → TResult) (env : Env) (s : SecureKV)
    (req : Request) (st : Option Nat)
    (hr : req.retry = true)
    (hb : backend (sentRequest env s req) = .failure st) :
    apiCall backend env s req = ⟨.err ⟨st, some (sentRequest env s req)⟩, s, 0, 0⟩ := by
  unfold apiCall
  simp only [sentRequest, requestInterceptor] at hb ⊢
  simp [hr] at hb ⊢
  simp [hb]

/-- Path lemma: an error whose status is not 401 is rejected
unchanged: no refresh, no resubmission. -/
theorem apiCall_non401 (backend : Request → TResult) (env : Env) (s : SecureKV)
    (req : Request) (st : Option Nat)
    (hst : st ≠ some 401)
    (hb : backend (sentRequest env s req) = .failure st) :
    apiCall backend env s req = ⟨.err ⟨st, some (sentRequest env s req)⟩, s, 0, 0⟩ := by
  unfold apiCall
  simp only [sentRequest, requestInterceptor] at hb ⊢
  simp [hb, hst]

/-- Path lemma: a fresh 401 whose stored refresh token reads back null
or empty is rejected as the original error, with the storage
untouched and no refresh call issued. -/
theorem apiCall_refreshAbsent (backend : Request → TResult) (env : Env) (s : SecureKV)
    (req : Request)
    (hr : req.retry = false)
    (hb : backend (sentRequest env s req) = .failure (some 401))
    (ht : truthy (TokenService.getRefreshToken env.refreshReadOk s) = false) :
    apiCall backend env s req =
      ⟨.err ⟨some 401, some { sentRequest env s req with retry := true }⟩, s, 0, 0⟩ := by
  unfold apiCall
  simp only [sentRequest, requestInterceptor] at hb ⊢
  simp [hr] at hb ⊢
  cases hg : TokenService.getRefreshToken env.refreshReadOk s with
  | none => simp [hb, hg]
  | some rt =>
    rw [hg] at ht
    simp [hb, hg, ht]

/-- Path lemma: a fresh 401 with a truthy refresh token whose refresh
call does not produce an access token (transport error or missing
field) clears the stored tokens and rejects the original error. -/
theorem apiCall_refreshFailure (backend : Request → TResult) (env : Env) (s : SecureKV)
    (req : Request) (rt : String)
    (hr : req.retry = false)
    (hb : backend (sentRequest env s req) = .failure (some 401))
    (ht : TokenService.getRefreshToken env.refreshReadOk s = some rt)
    (hne : rt ≠ "")
    (hf : ∀ a, env.refreshBackend (refreshRequest rt) ≠ .ok (some a)) :
    apiCall backend env s req =
      ⟨.err ⟨some 401, some { sentRequest env s req with retry := true }⟩,
        TokenService.clearTokens s, 1, 0⟩ := by
  unfold apiCall
  simp only [sentRequest, requestInterceptor] at hb ⊢
  simp [hr] at hb ⊢
  have htr : truthy (some rt) = true := by simp [truthy, hne]
  cases hrb : env.refreshBackend (refreshRequest rt) with
  | error st2 => simp [hb, ht, htr, hrb]
  | ok tok =>
    cases tok with
    | none => simp [hb, ht, htr, hrb]
    | some a => exact absurd hrb (hf a)

/-- Path lemma: a fresh 401 with a truthy refresh token whose refresh
call returns a new access token persists the refreshed storage and
resubmits the marked request through the pipeline, whose outcome is
what the original caller observes, with one refresh and one
resubmission counted. -/
theorem apiCall_refreshSuccess (backend : Request → TResult) (env : Env) (s : SecureKV)
    (req : Request) (rt a : String)
    (hr : req.retry = false)
    (hb : backend (sentRequest env s req) = .failure (some 401))
    (ht : TokenService.getRefreshToken env.refreshReadOk s = some rt)
    (hne : rt ≠ "")
    (hok : env.refreshBackend (refreshRequest rt) = .ok (some a)) :
    apiCall backend env s req =
      ⟨(apiCall backend env (refreshedStore env s a) (retriedRequest env s req a)).result,
        (apiCall backend env (refreshedStore env s a) (retriedRequest env s req a)).store,
        (apiCall backend env (refreshedStore env s a) (retriedRequest env s req a)).refreshes + 1,
        (apiCall backend env (refreshedStore env s a) (retriedRequest env s req a)).resubmits + 1⟩ := by
  conv_lhs => rw [apiCall]
  simp only [sentRequest, requestInterceptor] at hb
  simp [hr] at hb
  have htr : truthy (some rt) = true := by simp [truthy, hne]
  simp [hr, hb, ht, htr, hok, sentRequest, requestInterceptor, retriedRequest, refreshedStore]

/-- Claim C10: token store round-trip: after setTokens a b, a
successful access read returns a and a successful refresh read returns
b; after clearTokens, either read returns absent whether or not the
underlying storage read succeeds. -/
theorem tokenService_roundtrip (a b : String) (s : SecureKV) (ro : Bool) :
    TokenService.getAccessToken true (TokenService.setTokens a b s) = some a ∧
    TokenService.getRefreshToken true (TokenService.setTokens a b s) = some b ∧
    TokenService.getAccessToken ro (TokenService.clearTokens s) = none ∧
    TokenService.getRefreshToken ro (TokenService.clearTokens s) = none := by
  refine ⟨?_, ?_, ?_, ?_⟩ <;>
    cases ro <;>
      simp [TokenService.getAccessToken, TokenService.getRefreshToken,
        TokenService.setTokens, TokenService.clearTokens,
        setItemAsync, deleteItemAsync, ACCESS_TOKEN_KEY, REFRESH_TOKEN_KEY]

/-- A call whose request already carries the retry marker performs no
refresh and no resubmission and leaves the storage untouched. -/
theorem apiCall_marked_counts (backend : Request → TResult) (env : Env) (s : SecureKV)
    (req : Request) (hr : req.retry = true) :
    (apiCall backend env s req).refreshes = 0 ∧
    (apiCall backend env s req).resubmits = 0 ∧
    (apiCall backend env s req).store = s := by
  cases hb : backend (sentRequest env s req) with
  | success resp =>
    rw [apiCall_success backend env s req resp hb]
    exact ⟨rfl, rfl, rfl⟩
  | failure st =>
    rw [apiCall_alreadyRetried backend env s req st hr hb]
    exact ⟨rfl, rfl, rfl⟩

/-- Any call performs at most one refresh attempt and at most one
resubmission. -/
theorem apiCall_counts_le (backend : Request → TResult) (env : Env) (s : SecureKV)
    (req : Request) :
    (apiCall backend env s req).refreshes ≤ 1 ∧ (apiCall backend env s req).resubmits ≤ 1 := by
  by_cases hr : req.retry = true
  · obtain ⟨h1, h2, -⟩ := apiCall_marked_counts backend env s req hr
    rw [h1, h2]
    exact ⟨Nat.zero_le 1, Nat.zero_le 1⟩
  · have hr0 : req.retry = false := by
      cases hrr : req.retry
      · rfl
      · exact absurd hrr hr
    cases hb : backend (sentRequest env s req) with
    | success resp =>
      rw [apiCall_success backend env s req resp hb]
      exact ⟨Nat.zero_le 1, Nat.zero_le 1⟩
    | failure st =>
      by_cases h401 : st = some 401
      · subst h401
        cases hg : TokenService.getRefreshToken env.refreshReadOk s with
        | none =>
          rw [apiCall_refreshAbsent backend env s req hr0 hb (by simp [hg, truthy])]
          exact ⟨Nat.zero_le 1, Nat.zero_le 1⟩
        | some rt =>
          by_cases hne : rt = ""
          · rw [apiCall_refreshAbsent backend env s req hr0 hb (by simp [hg, truthy, hne])]
            exact ⟨Nat.zero_le 1, Nat.zero_le 1⟩
          · cases hrb : env.refreshBackend (refreshRequest rt) with
            | error st2 =>
              rw [apiCall_refreshFailure backend env s req rt hr0 hb hg hne
                (fun a h => by rw [hrb] at h; cases h)]
              exact ⟨Nat.le_refl 1, Nat.zero_le 1⟩
            | ok tok =>
              cases tok with
              | none =>
                rw [apiCall_refreshFailure backend env s req rt hr0 hb hg hne
                  (fun a h => by rw [hrb] at h; cases h)]
                exact ⟨Nat.le_refl 1, Nat.zero_le 1⟩
              | some a =>
                rw [apiCall_refreshSuccess backend env s req rt a hr0 hb hg hne hrb]
                obtain ⟨hm1, hm2, -⟩ := apiCall_marked_counts backend env
                  (refreshedStore env s a) (retriedRequest env s req a) rfl
                simp only [hm1, hm2]
                exact ⟨Nat.le_refl 1, Nat.le_refl 1⟩
      · rw [apiCall_non401 backend env s req st h401 hb]
        exact ⟨Nat.zero_le 1, Nat.zero_le 1⟩

/-- Claim C1: a request that fails with 401 after being marked retried
triggers no second refresh and no second resubmission: its call
performs zero refreshes and zero resubmissions and the error
propagates to the caller; in general every original call performs at
most one refresh attempt and at most one retried resubmission. -/
theorem inboundHook_single_retry (backend : Request → TResult) (env : Env)
    (s : SecureKV) (req : Request) :
    (apiCall backend env s req).refreshes ≤ 1 ∧
    (apiCall backend env s req).resubmits ≤ 1 ∧
    (req.retry = true →
      (apiCall backend env s req).refreshes = 0 ∧
      (apiCall backend env s req).resubmits = 0 ∧
      ∀ st, backend (sentRequest env s req) = .failure st →
        (apiCall backend env s req).result = .err ⟨st, some (sentRequest env s req)⟩) := by
  refine ⟨(apiCall_counts_le backend env s req).1, (apiCall_counts_le backend env s req).2, ?_⟩
  intro hr
  obtain ⟨h1, h2, -⟩ := apiCall_marked_counts backend env s req hr
  refine ⟨h1, h2, ?_⟩
  intro st hb
  rw [apiCall_alreadyRetried backend env s req st hr hb]

/-- Concrete run of Claim C1: an always-401 backend, a request already
marked retried: no refresh, no resubmission, the 401 error
propagates. -/
theorem inboundHook_single_retry_witness :
    (apiCall backend401 envRefresh401 store0 reqRetried).refreshes = 0 ∧
    (apiCall backend401 envRefresh401 store0 reqRetried).resubmits = 0 ∧
    (apiCall backend401 envRefresh401 store0 reqRetried).result =
      .err ⟨some 401, some (sentRequest envRefresh401 store0 reqRetried)⟩ := by
  obtain ⟨-, -, h⟩ := inboundHook_single_retry backend401 envRefresh401 store0 reqRetried
  obtain ⟨h1, h2, h3⟩ := h rfl
  exact ⟨h1, h2, h3 (some 401) rfl⟩

/-- Claim C9: a fresh 401 whose stored refresh token reads back absent
issues no refresh call, leaves the stored credentials unchanged, and
rejects the original 401 error to the caller. -/
theorem inboundHook_refreshToken_absent (backend : Request → TResult) (env : Env)
    (s : SecureKV) (req : Request)
    (hr : req.retry = false)
    (hb : backend (sentRequest env s req) = .failure (some 401))
    (hn : TokenService.getRefreshToken env.refreshReadOk s = none) :
    (apiCall backend env s req).refreshes = 0 ∧
    (apiCall backend env s req).resubmits = 0 ∧
    (apiCall backend env s req).store = s ∧
    (apiCall backend env s req).result =
      .err ⟨some 401, some { sentRequest env s req with retry := true }⟩ := by
  rw [apiCall_refreshAbsent backend env s req hr hb (by simp [hn, truthy])]
  exact ⟨rfl, rfl, rfl, rfl⟩

/-- Concrete run of Claim C9: storage with no refresh token, an
always-401 backend: no refresh call, storage unchanged, original 401
rejected. -/
theorem inboundHook_refreshToken_absent_witness :
    (apiCall backend401 envRefreshOk storeNoRefresh reqFresh).refreshes = 0 ∧
    (apiCall backend401 envRefreshOk storeNoRefresh reqFresh).resubmits = 0 ∧
    (apiCall backend401 envRefreshOk storeNoRefresh reqFresh).store = storeNoRefresh ∧
    (apiCall backend401 envRefreshOk storeNoRefresh reqFresh).result =
      .err ⟨some 401, some { sentRequest envRefreshOk storeNoRefresh reqFresh with retry := true }⟩ :=
  inboundHook_refreshToken_absent backend401 envRefreshOk storeNoRefresh reqFresh rfl rfl
    (by simp [TokenService.getRefreshToken, storeNoRefresh, setItemAsync, emptyStore,
      REFRESH_TOKEN_KEY, ACCESS_TOKEN_KEY])

/-- Claim C2: a fresh 401 with a stored (truthy) refresh token whose
refresh call fails — transport error, non-2xx, or a response missing
the access token field — clears both stored tokens via clearTokens,
and the value the original caller observes is the original 401 error,
not the refresh error. -/
theorem inboundHook_refresh_failure (backend : Request → TResult) (env : Env)
    (s : SecureKV) (req : Request) (rt : String)
    (hr : req.retry = false)
    (hb : backend (sentRequest env s req) = .failure (some 401))
    (ht : TokenService.getRefreshToken env.refreshReadOk s = some rt)
    (hne : rt ≠ "")
    (hf : ∀ a, env.refreshBackend (refreshRequest rt) ≠ .ok (some a)) :
    (apiCall backend env s req).store = TokenService.clearTokens s ∧
    TokenService.getAccessToken true (apiCall backend env s req).store = none ∧
    TokenService.getRefreshToken true (apiCall backend env s req).store = none ∧
    (apiCall backend env s req).resubmits = 0 ∧
    (apiCall backend env s req).result =
      .err ⟨some 401, some { sentRequest env s req with retry := true }⟩ := by
  rw [apiCall_refreshFailure backend env s req rt hr hb ht hne hf]
  refine ⟨rfl, ?_, ?_, rfl, rfl⟩ <;>
    simp [TokenService.getAccessToken, TokenService.getRefreshToken,
      TokenService.clearTokens, deleteItemAsync, ACCESS_TOKEN_KEY, REFRESH_TOKEN_KEY]

/-- Concrete run of Claim C2: the refresh endpoint answers 400, the
stored pair is cleared and the original 401 is the rejected value. -/
theorem inboundHook_refresh_failure_witness :
    (apiCall backend401 envRefreshFail store0 reqFresh).store =
      TokenService.clearTokens store0 ∧
    TokenService.getAccessToken true (apiCall backend401 envRefreshFail store0 reqFresh).store =
      none ∧
    TokenService.getRefreshToken true (apiCall backend401 envRefreshFail store0 reqFresh).store =
      none ∧
    (apiCall backend401 envRefreshFail store0 reqFresh).resubmits = 0 ∧
    (apiCall backend401 envRefreshFail store0 reqFresh).result =
      .err ⟨some 401, some { sentRequest envRefreshFail store0 reqFresh with retry := true }⟩ :=
  inboundHook_refresh_failure backend401 envRefreshFail store0 reqFresh "r0" rfl rfl
    (by simp [TokenService.getRefreshToken, envRefreshFail, store0, TokenService.setTokens,
      setItemAsync, emptyStore, REFRESH_TOKEN_KEY, ACCESS_TOKEN_KEY])
    (by decide)
    (fun a h => by rw [show envRefreshFail.refreshBackend (refreshRequest "r0") =
      .error (some 400) from rfl] at h; cases h)

/-- Claim C8: the refresh call is a POST to /auth/refresh carrying the
refresh token in its body, issued on the raw transport: no
Authorization header is attached to it (the outbound hook does not run
for it), and a 401 rejection of the refresh call itself is handled by
the enclosing catch — one refresh attempt, no recursive refresh and no
resubmission, the original error rejected. -/
theorem refreshCall_bypasses_interceptor (backend : Request → TResult) (env : Env)
    (s : SecureKV) (req : Request) (rt : String)
    (hr : req.retry = false)
    (hb : backend (sentRequest env s req) = .failure (some 401))
    (ht : TokenService.getRefreshToken env.refreshReadOk s = some rt)
    (hne : rt ≠ "")
    (hrb : env.refreshBackend (refreshRequest rt) = .error (some 401)) :
    (refreshRequest rt).method = "POST" ∧
    (refreshRequest rt).url = "/auth/refresh" ∧
    (refreshRequest rt).body = some rt ∧
    (refreshRequest rt).auth = none ∧
    (apiCall backend env s req).refreshes = 1 ∧
    (apiCall backend env s req).resubmits = 0 ∧
    (apiCall backend env s req).result =
      .err ⟨some 401, some { sentRequest env s req with retry := true }⟩ := by
  rw [apiCall_refreshFailure backend env s req rt hr hb ht hne
    (fun a h => by rw [hrb] at h; cases h)]
  exact ⟨rfl, rfl, rfl, rfl, rfl, rfl, rfl⟩

/-- Concrete run of Claim C8: the refresh endpoint itself answers 401;
exactly one refresh attempt is made and no recursion occurs. -/
theorem refreshCall_bypasses_interceptor_witness :
    (refreshRequest "r0").auth = none ∧
    (refreshRequest "r0").url = "/auth/refresh" ∧
    (apiCall backend401 envRefresh401 store0 reqFresh).refreshes = 1 ∧
    (apiCall backend401 envRefresh401 store0 reqFresh).resubmits = 0 ∧
    (apiCall backend401 envRefresh401 store0 reqFresh).result =
      .err ⟨some 401, some { sentRequest envRefresh401 store0 reqFresh with retry := true }⟩ := by
  obtain ⟨-, h2, -, h4, h5, h6, h7⟩ :=
    refreshCall_bypasses_interceptor backend401 envRefresh401 store0 reqFresh "r0" rfl rfl
      (by simp [TokenService.getRefreshToken, envRefresh401, store0, TokenService.setTokens,
        setItemAsync, emptyStore, REFRESH_TOKEN_KEY, ACCESS_TOKEN_KEY])
      (by decide) rfl
  exact ⟨h4, h2, h5, h6, h7⟩

/-- Claim C5 counterexample: existing refresh token r0, refresh call
succeeds with access token a1, but the defensive re-read yields
absent: the client persists the empty string, not the existing refresh
token r0, so the persisted refresh token is present yet empty. -/
theorem refresh_persist_fallback_counterexample :
    TokenService.getRefreshToken envReReadFails.reReadOk store0 = none ∧
    TokenService.getRefreshToken true store0 = some "r0" ∧
    TokenService.getRefreshToken true
      (apiCall backendRetryOk envReReadFails store0 reqFresh).store = some "" ∧
    TokenService.getRefreshToken true
      (apiCall backendRetryOk envReReadFails store0 reqFresh).store ≠ some "r0" := by
  have h := apiCall_refreshSuccess backendRetryOk envReReadFails store0 reqFresh "r0" "a1"
    rfl
    (by simp [backendRetryOk, sentRequest, requestInterceptor, reqFresh])
    (by simp [TokenService.getRefreshToken, envReReadFails, store0, TokenService.setTokens,
      setItemAsync, emptyStore, REFRESH_TOKEN_KEY, ACCESS_TOKEN_KEY])
    (by decide) rfl
  obtain ⟨-, -, hm⟩ := apiCall_marked_counts backendRetryOk envReReadFails
    (refreshedStore envReReadFails store0 "a1") (retriedRequest envReReadFails store0 reqFresh "a1") rfl
  have hstore : (apiCall backendRetryOk envReReadFails store0 reqFresh).store =
      refreshedStore envReReadFails store0 "a1" := by
    rw [h]; exact hm
  refine ⟨by decide, by decide, ?_, ?_⟩ <;> rw [hstore] <;> decide

/-- Claim C5 (amended): after a successful refresh the client persists
the new access token from the refresh response together with the
re-read current refresh token, with the empty string as fallback when
the re-read yields absent; the persisted refresh token may therefore
be the empty string. -/
theorem refresh_persists_reread_pair (backend : Request → TResult) (env : Env)
    (s : SecureKV) (req : Request) (rt a : String)
    (hr : req.retry = false)
    (hb : backend (sentRequest env s req) = .failure (some 401))
    (ht : TokenService.getRefreshToken env.refreshReadOk s = some rt)
    (hne : rt ≠ "")
    (hok : env.refreshBackend (refreshRequest rt) = .ok (some a)) :
    (apiCall backend env s req).store =
      TokenService.setTokens a ((TokenService.getRefreshToken env.reReadOk s).getD "") s ∧
    TokenService.getAccessToken true (apiCall backend env s req).store = some a ∧
    TokenService.getRefreshToken true (apiCall backend env s req).store =
      some ((TokenService.getRefreshToken env.reReadOk s).getD "") := by
  obtain ⟨-, -, hm⟩ := apiCall_marked_counts backend env
    (refreshedStore env s a) (retriedRequest env s req a) rfl
  have hstore : (apiCall backend env s req).store = refreshedStore env s a := by
    rw [apiCall_refreshSuccess backend env s req rt a hr hb ht hne hok]; exact hm
  refine ⟨hstore, ?_, ?_⟩ <;> rw [hstore] <;>
    simp [refreshedStore, TokenService.setTokens, TokenService.getAccessToken,
      TokenService.getRefreshToken, setItemAsync, ACCESS_TOKEN_KEY, REFRESH_TOKEN_KEY]

/-- Concrete run of amended Claim C5: successful refresh with a failed
re-read persists the pair of the new access token and the empty
string. -/
theorem refresh_persists_reread_pair_witness :
    TokenService.getAccessToken true
      (apiCall backendRetryOk envReReadFails store0 reqFresh).store = some "a1" ∧
    TokenService.getRefreshToken true
      (apiCall backendRetryOk envReReadFails store0 reqFresh).store =
      some ((TokenService.getRefreshToken envReReadFails.reReadOk store0).getD "") := by
  obtain ⟨-, h2, h3⟩ := refresh_persists_reread_pair backendRetryOk envReReadFails store0
    reqFresh "r0" "a1" rfl
    (by simp [backendRetryOk, sentRequest, requestInterceptor, reqFresh])
    (by simp [TokenService.getRefreshToken, envReReadFails, store0, TokenService.setTokens,
      setItemAsync, emptyStore, REFRESH_TOKEN_KEY, ACCESS_TOKEN_KEY])
    (by decide) rfl
  exact ⟨h2, h3⟩

/-- Claim C3 counterexample: when the remote logout post rejects with
a network error, the error propagates out of logout (it is not
swallowed), the setUser call is skipped, and the session still holds
the user: isAuthenticated stays true. -/
theorem logout_failure_counterexample :
    (AuthContext.logout (.error err0) store0 sess0).1 = .error err0 ∧
    (AuthContext.logout (.error err0) store0 sess0).2.2 = sess0 ∧
    isAuthenticated (AuthContext.logout (.error err0) store0 sess0).2.2 = true := by
  exact ⟨rfl, rfl, rfl⟩

/-- Claim C3 (amended): logout always clears the stored credentials,
even when the remote logout call throws, because the finally clause
runs; on a successful remote call the session user is set to absent;
on a remote failure, however, the rejection propagates to the caller
unswallowed, the setUser call is skipped, and the session user is
unchanged. -/
theorem logout_clears_tokens (postResult : Except AxiosErr Unit) (s : SecureKV)
    (st : Session) :
    (AuthContext.logout postResult s st).2.1 = TokenService.clearTokens s ∧
    TokenService.getAccessToken true (AuthContext.logout postResult s st).2.1 = none ∧
    TokenService.getRefreshToken true (AuthContext.logout postResult s st).2.1 = none ∧
    (postResult = .ok () →
      (AuthContext.logout postResult s st).1 = .ok () ∧
      (AuthContext.logout postResult s st).2.2.user = none ∧
      isAuthenticated (AuthContext.logout postResult s st).2.2 = false) ∧
    (∀ e, postResult = .error e →
      (AuthContext.logout postResult s st).1 = .error e ∧
      (AuthContext.logout postResult s st).2.2 = st) := by
  cases postResult with
  | ok u =>
    cases u
    simp [AuthContext.logout, AuthAPI.logout, isAuthenticated,
      TokenService.getAccessToken, TokenService.getRefreshToken,
      TokenService.clearTokens, deleteItemAsync, ACCESS_TOKEN_KEY, REFRESH_TOKEN_KEY]
  | error e =>
    simp [AuthContext.logout, AuthAPI.logout,
      TokenService.getAccessToken, TokenService.getRefreshToken,
      TokenService.clearTokens, deleteItemAsync, ACCESS_TOKEN_KEY, REFRESH_TOKEN_KEY]

/-- Concrete run of amended Claim C3: a failing remote logout still
clears the tokens while the rejection and the user survive. -/
theorem logout_clears_tokens_witness :
    TokenService.getAccessToken true (AuthContext.logout (.error err0) store0 sess0).2.1 =
      none ∧
    TokenService.getRefreshToken true (AuthContext.logout (.error err0) store0 sess0).2.1 =
      none ∧
    (AuthContext.logout (.error err0) store0 sess0).1 = .error err0 ∧
    (AuthContext.logout (.error err0) store0 sess0).2.2 = sess0 := by
  obtain ⟨-, h2, h3, -, h5⟩ := logout_clears_tokens (.error err0) store0 sess0
  obtain ⟨ha, hb⟩ := h5 err0 rfl
  exact ⟨h2, h3, ha, hb⟩

/-- Claim C4 counterexample: with the access token stored as the empty
string, the read yields a present string, yet the outbound hook
forwards the request unchanged instead of setting an Authorization
header. -/
theorem outboundHook_empty_token_counterexample :
    TokenService.getAccessToken true storeEmptyTok = some "" ∧
    requestInterceptor (TokenService.getAccessToken true storeEmptyTok) reqFresh = reqFresh ∧
    (requestInterceptor (TokenService.getAccessToken true storeEmptyTok) reqFresh).auth =
      none := by
  refine ⟨by decide, by decide, by decide⟩

/-- Claim C4 (amended): the outbound hook reads the stored access
token; when the read yields a non-empty token it sets the single
Authorization header to Bearer followed by the token; when the token
is absent, empty, or the storage read fails (treated as no token), the
request is forwarded unchanged. -/
theorem outboundHook_spec (readOk : Bool) (s : SecureKV) (req : Request) :
    (∀ t, TokenService.getAccessToken readOk s = some t → t ≠ "" →
      requestInterceptor (TokenService.getAccessToken readOk s) req =
        { req with auth := some ("Bearer " ++ t) }) ∧
    (truthy (TokenService.getAccessToken readOk s) = false →
      requestInterceptor (TokenService.getAccessToken readOk s) req = req) ∧
    TokenService.getAccessToken false s = none := by
  refine ⟨?_, ?_, rfl⟩
  · intro t h hne
    rw [h]
    simp [requestInterceptor, truthy, hne]
  · intro h
    simp [requestInterceptor, h]

/-- Concrete run of amended Claim C4: a stored token a0 produces the
header Bearer a0. -/
theorem outboundHook_spec_witness :
    requestInterceptor (TokenService.getAccessToken true store0) reqFresh =
      { reqFresh with auth := some ("Bearer " ++ "a0") } :=
  (outboundHook_spec true store0 reqFresh).1 "a0" (by decide) (by decide)

/-- Claim C6: login on success stores the returned credential pair and
sets the session user to the returned user; on failure the storage and
session are unchanged and the very same error is surfaced to the
caller. -/
theorem login_spec (postResult : Except AxiosErr AuthResponse) (s : SecureKV)
    (st : Session) :
    (∀ resp, postResult = .ok resp →
      (AuthContext.login postResult s st).2.1 =
        TokenService.setTokens resp.access_token resp.refresh_token s ∧
      TokenService.getAccessToken true (AuthContext.login postResult s st).2.1 =
        some resp.access_token ∧
      TokenService.getRefreshToken true (AuthContext.login postResult s st).2.1 =
        some resp.refresh_token ∧
      (AuthContext.login postResult s st).2.2.user = some resp.user ∧
      isAuthenticated (AuthContext.login postResult s st).2.2 = true ∧
      (AuthContext.login postResult s st).1 = .ok ()) ∧
    (∀ e, postResult = .error e →
      (AuthContext.login postResult s st).1 = .error e ∧
      (AuthContext.login postResult s st).2.1 = s ∧
      (AuthContext.login postResult s st).2.2 = st) := by
  cases postResult with
  | ok resp =>
    simp [AuthContext.login, AuthAPI.login, isAuthenticated,
      TokenService.getAccessToken, TokenService.getRefreshToken,
      TokenService.setTokens, setItemAsync, ACCESS_TOKEN_KEY, REFRESH_TOKEN_KEY]
  | error e =>
    simp [AuthContext.login, AuthAPI.login]

/-- Concrete run of Claim C6: a successful login with payload resp0
stores the pair a1, r1 and the session becomes authenticated with the
returned user. -/
theorem login_spec_witness :
    TokenService.getAccessToken true (AuthContext.login (.ok resp0) emptyStore sessAbsent).2.1 =
      some "a1" ∧
    TokenService.getRefreshToken true (AuthContext.login (.ok resp0) emptyStore sessAbsent).2.1 =
      some "r1" ∧
    (AuthContext.login (.ok resp0) emptyStore sessAbsent).2.2.user = some user0 ∧
    isAuthenticated (AuthContext.login (.ok resp0) emptyStore sessAbsent).2.2 = true := by
  obtain ⟨h, -⟩ := login_spec (.ok resp0) emptyStore sessAbsent
  obtain ⟨-, h2, h3, h4, h5, -⟩ := h resp0 rfl
  exact ⟨h2, h3, h4, h5⟩

/-- Claim C7 counterexample: with the access token stored as the empty
string, the startup check reads a present token, yet issues no
profile fetch and never sets the session to present, even though the
profile fetch would have succeeded. -/
theorem checkAuth_empty_token_counterexample :
    TokenService.getAccessToken true storeEmptyTok = some "" ∧
    (AuthContext.checkAuth true (.ok user0) storeEmptyTok sessAbsent).profileFetches = 0 ∧
    (AuthContext.checkAuth true (.ok user0) storeEmptyTok sessAbsent).session.user =
      none ∧
    (AuthContext.checkAuth true (.ok user0) storeEmptyTok sessAbsent).session.isLoading =
      false := by
  refine ⟨by decide, ?_, ?_, ?_⟩ <;>
    simp [AuthContext.checkAuth, truthy, TokenService.getAccessToken, storeEmptyTok,
      TokenService.setTokens, setItemAsync, emptyStore, ACCESS_TOKEN_KEY, REFRESH_TOKEN_KEY,
      sessAbsent]

/-- Claim C7 (amended): the startup check reads the stored access
token; when it is present and non-empty it fetches the profile once,
setting the session to present on success and, on any fetch failure,
clearing the stored credentials and setting the session to absent;
when the token is absent or empty no fetch happens and storage and
user are unchanged; in every case isLoading is resolved to false
exactly once. -/
theorem checkAuth_spec (readOk : Bool) (profileResult : Except AxiosErr User)
    (s : SecureKV) (st : Session) :
    (∀ t, TokenService.getAccessToken readOk s = some t → t ≠ "" →
      (AuthContext.checkAuth readOk profileResult s st).profileFetches = 1 ∧
      (∀ u, profileResult = .ok u →
        AuthContext.checkAuth readOk profileResult s st =
          ⟨s, { st with user := some u, isLoading := false }, 1, 1⟩) ∧
      (∀ e, profileResult = .error e →
        AuthContext.checkAuth readOk profileResult s st =
          ⟨TokenService.clearTokens s, { st with user := none, isLoading := false }, 1, 1⟩)) ∧
    (truthy (TokenService.getAccessToken readOk s) = false →
      AuthContext.checkAuth readOk profileResult s st =
        ⟨s, { st with isLoading := false }, 0, 1⟩) ∧
    (AuthContext.checkAuth readOk profileResult s st).session.isLoading = false ∧
    (AuthContext.checkAuth readOk profileResult s st).loadingResolutions = 1 := by
  have htr : ∀ t, TokenService.getAccessToken readOk s = some t → t ≠ "" →
      truthy (TokenService.getAccessToken readOk s) = true := by
    intro t h hne
    rw [h]
    simp [truthy, hne]
  refine ⟨?_, ?_, ?_, ?_⟩
  · intro t h hne
    have := htr t h hne
    cases profileResult with
    | ok u => simp [AuthContext.checkAuth, this]
    | error e => simp [AuthContext.checkAuth, this]
  · intro h
    simp [AuthContext.checkAuth, h]
  · cases hc : truthy (TokenService.getAccessToken readOk s) <;>
      cases profileResult <;> simp [AuthContext.checkAuth, hc]
  · cases hc : truthy (TokenService.getAccessToken readOk s) <;>
      cases profileResult <;> simp [AuthContext.checkAuth, hc]

/-- Concrete run of amended Claim C7: a stored non-empty token and a
successful profile fetch produce one fetch, a present user, and a
resolved loading flag. -/
theorem checkAuth_spec_witness :
    AuthContext.checkAuth true (.ok user0) store0 sessAbsent =
      ⟨store0, { sessAbsent with user := some user0, isLoading := false }, 1, 1⟩ := by
  obtain ⟨h, -, -, -⟩ := checkAuth_spec true (.ok user0) store0 sessAbsent
  obtain ⟨-, h2, -⟩ := h "a0" (by decide) (by decide)
  exact h2 user0 rfl

/-- Concrete run of Claim C10: the round-trip at the pair a0, r0. -/
theorem tokenService_roundtrip_witness :
    TokenService.getAccessToken true (TokenService.setTokens "a0" "r0" emptyStore) =
      some "a0" ∧
    TokenService.getRefreshToken true (TokenService.setTokens "a0" "r0" emptyStore) =
      some "r0" ∧
    TokenService.getAccessToken true (TokenService.clearTokens emptyStore) = none ∧
    TokenService.getRefreshToken true (TokenService.clearTokens emptyStore) = none :=
  tokenService_roundtrip "a0" "r0" emptyStore true
